import Mathlib

/-!
Shallow embedding of `rplugin/python3/deoplete/source/snowflake.py`
(deoplete-snowflake completion source).

Conventions of the embedding:
* Python dicts become insertion-ordered association lists (Python 3.7+ dicts
  preserve insertion order, which the source relies on for candidate order).
* Python exceptions that can escape a function become `Except String`,
  carrying the Python exception class name.
* Python's `str.split(sep)` with a one-character separator, `str.strip()`,
  and `str.upper()` are modelled over ASCII (`pySplit`, `pyStrip`, `pyUpper`),
  as are the `\w` and `\s` character classes of the `re` patterns.
* The three regular expressions of the source (`COLUMN_PATTERN`,
  `table_regex` of `gather_candidates`, and the alias pattern passed to
  `parse_buffer_pattern`) are compiled by hand into scanning functions with
  Python `re` semantics (leftmost match, alternation in order, greedy
  repetition).  Backtracking never changes the outcome for these patterns:
  every greedy `\w+`/`\w*`/`\s+` run is followed by a character that is not
  in its own class, so a shorter run always fails at the follow-up literal.
-/

/-- Python `\w` (ASCII): `[0-9A-Za-z_]`. -/
def isWordChar (c : Char) : Bool :=
  (48 ≤ c.toNat && c.toNat ≤ 57) || (65 ≤ c.toNat && c.toNat ≤ 90) ||
  (97 ≤ c.toNat && c.toNat ≤ 122) || c.toNat == 95

/-- Python `\s` (ASCII): space, tab, newline, carriage return, vertical tab, form feed. -/
def isSpaceChar (c : Char) : Bool :=
  c.toNat == 32 || c.toNat == 9 || c.toNat == 10 || c.toNat == 13 ||
  c.toNat == 11 || c.toNat == 12

/-- Python `str.split(sep)` for a one-character separator: splitting the empty
string gives `[""]`, adjacent separators give empty pieces. -/
def splitOnChar (sep : Char) : List Char → List (List Char)
| [] => [[]]
| c :: rest =>
  let r := splitOnChar sep rest
  if c = sep then [] :: r
  else
    match r with
    | [] => [[c]]
    | h :: t => (c :: h) :: t

def pySplit (s : String) (sep : Char) : List String :=
  (splitOnChar sep s.data).map List.asString

/-- Python `str.strip()` (ASCII whitespace). -/
def pyStrip (s : String) : String :=
  (((s.data.dropWhile isSpaceChar).reverse.dropWhile isSpaceChar).reverse).asString

/-- Python `str.upper()` (ASCII letters). -/
def upperChar (c : Char) : Char :=
  if 97 ≤ c.toNat ∧ c.toNat ≤ 122 then Char.ofNat (c.toNat - 32) else c

def pyUpper (s : String) : String :=
  (s.data.map upperChar).asString

/-- Python truthiness of an optional regex group: `None` and `""` are falsy. -/
def truthy : Option String → Bool
| none => false
| some s => s ≠ ""

/-- Association-list lookup: first pair whose key matches (dict lookup). -/
def lookupAssoc {α : Type} : List (String × α) → String → Option α
| [], _ => none
| p :: ps, k => if p.1 = k then some p.2 else lookupAssoc ps k

/-- Overwrite the value of the first pair with the given key, keeping its
position (Python dict assignment to an existing key). -/
def updateAssoc {α : Type} : List (String × α) → String → α → List (String × α)
| [], _, _ => []
| p :: ps, k, v => if p.1 = k then (k, v) :: ps else p :: updateAssoc ps k v

/-- Python dict assignment `d[k] = v`: overwrite in place if the key exists,
otherwise append at the end (insertion order). -/
def setAssoc {α : Type} (l : List (String × α)) (k : String) (v : α) : List (String × α) :=
  match lookupAssoc l k with
  | some _ => updateAssoc l k v
  | none => l ++ [(k, v)]

/-- One column row as stored in `self._cache["tables"][table]["columns"]`
(snowflake.py:143-145). -/
structure ColumnData where
  name : String
  default : String
  type : String
deriving DecidableEq, Repr

/-- Value of `self._cache["tables"][table]`: column list plus alias list.
A freshly created table entry (snowflake.py:141-142) has no `"aliases"` key
yet; `_make_cache` assigns `[]` to every table's aliases before any lookup
reads them (snowflake.py:177-178), so the field is modelled as always present. -/
structure TableInfo where
  columns : List ColumnData
  aliases : List String
deriving DecidableEq, Repr

/-- `self._cache`: `{"tables": {...}, "databases": {...}}` (snowflake.py:49).
`databases` maps a database name to a schema-to-table-names mapping;
`tables` maps a table name to its info. -/
structure Cache where
  tables : List (String × TableInfo)
  databases : List (String × List (String × List String))
deriving DecidableEq, Repr

/-- `self._cache = {"tables": {}, "databases": {}}` (snowflake.py:49). -/
def initCache : Cache := { tables := [], databases := [] }

/-- A completion candidate dict. Non-column candidates carry no `"menu"` key;
that is modelled by the default `menu := ""` (column candidates always have a
non-empty bracketed menu). -/
structure Candidate where
  word : String
  menu : String := ""
  kind : String
deriving DecidableEq, Repr

/-! ### COLUMN_PATTERN = re.compile(r"(\w+)[.]\w*")  (snowflake.py:25)

`search` semantics: leftmost position where a maximal nonempty `\w+` run is
immediately followed by a literal dot.  Backtracking the greedy `\w+` cannot
help: a shorter run leaves a word character where the dot must be. -/

def columnMatchAt (cs : List Char) : Option String :=
  let run := cs.takeWhile isWordChar
  if run = [] then none
  else
    match cs.dropWhile isWordChar with
    | '.' :: _ => some run.asString
    | _ => none

def columnSearchAux : List Char → Option String
| [] => none
| c :: rest =>
  match columnMatchAt (c :: rest) with
  | some g => some g
  | none => columnSearchAux rest

/-- `COLUMN_PATTERN.search(current_line)`, returning `group(1)`. -/
def columnSearch (s : String) : Option String := columnSearchAux s.data

/-! ### table_regex (snowflake.py:56-58)

`(FROM|from|JOIN|join)\s+((\w+[.](\w+)[.](\w*))|(\w+)[.](\w*)|(\w*))`

`gather_candidates` only consults `group(2)` (the whole qualifier),
`groups()[6]` (group 7, the `(\w*)` of the `db.partialSchema` alternative) and
`groups()[7]` (group 8, the `(\w*)` of the bare alternative); groups that did
not participate in the match are `None`. -/

structure TableMatch where
  g2 : String
  g7 : Option String := none
  g8 : Option String := none
deriving DecidableEq, Repr

/-- The four keyword alternatives.  They are mutually exclusive (distinct
first characters), so alternation order is immaterial; both the table regex
(`FROM|from|JOIN|join`) and the alias regex (`FROM|JOIN|from|join`) use this
set.  Returns the matched keyword and the remaining input. -/
def matchKeyword : List Char → Option (String × List Char)
| 'F' :: 'R' :: 'O' :: 'M' :: rest => some ("FROM", rest)
| 'f' :: 'r' :: 'o' :: 'm' :: rest => some ("from", rest)
| 'J' :: 'O' :: 'I' :: 'N' :: rest => some ("JOIN", rest)
| 'j' :: 'o' :: 'i' :: 'n' :: rest => some ("join", rest)
| _ => none

/-- Match the qualifier alternation `(\w+[.](\w+)[.](\w*))|(\w+)[.](\w*)|(\w*)`
at the start of the input.  Always succeeds (the last alternative matches the
empty string). -/
def parseQualifier (cs : List Char) : TableMatch :=
  if cs.takeWhile isWordChar = [] then
    { g2 := "", g8 := some "" }
  else
    match cs.dropWhile isWordChar with
    | '.' :: cs2 =>
      if cs2.takeWhile isWordChar = [] then
        { g2 := (cs.takeWhile isWordChar ++ ['.']).asString, g7 := some "" }
      else
        match cs2.dropWhile isWordChar with
        | '.' :: cs3 =>
          { g2 := (cs.takeWhile isWordChar ++ '.' :: cs2.takeWhile isWordChar ++
                   '.' :: cs3.takeWhile isWordChar).asString }
        | _ =>
          { g2 := (cs.takeWhile isWordChar ++ '.' :: cs2.takeWhile isWordChar).asString,
            g7 := some (cs2.takeWhile isWordChar).asString }
    | _ => { g2 := (cs.takeWhile isWordChar).asString,
             g8 := some (cs.takeWhile isWordChar).asString }

/-- Try the full table pattern anchored at the start of the input: a keyword,
one-or-more whitespace, then the qualifier. -/
def tableMatchAt (cs : List Char) : Option TableMatch :=
  match matchKeyword cs with
  | none => none
  | some (_, after) =>
    if after.takeWhile isSpaceChar = [] then none
    else some (parseQualifier (after.dropWhile isSpaceChar))

def tableSearchAux : List Char → Option TableMatch
| [] => none
| c :: rest =>
  match tableMatchAt (c :: rest) with
  | some tm => some tm
  | none => tableSearchAux rest

/-- `table_regex.search(current_line)` (snowflake.py:59). -/
def tableSearch (s : String) : Option TableMatch := tableSearchAux s.data

/-! ### Candidate resolver: Source.gather_candidates (snowflake.py:51-97) -/

/-- Stable insertion by `word`, keeping earlier list elements before
later elements with an equal word. -/
def insertByWord (c : Candidate) : List Candidate → List Candidate
| [] => [c]
| d :: ds => if d.word < c.word then d :: insertByWord c ds else c :: d :: ds

/-- `candidates.sort(key=operator.itemgetter("word"))` (snowflake.py:96):
stable ascending sort by the `"word"` field, comparing strings by code point. -/
def sortByWord : List Candidate → List Candidate
| [] => []
| c :: cs => insertByWord c (sortByWord cs)

/-- Column branch of `gather_candidates` (snowflake.py:63-76): for each table
whose key equals the upper-cased token, or whose alias list contains it,
append one candidate per column. -/
def columnCandidates : List (String × TableInfo) → String → List Candidate
| [], _ => []
| (t, info) :: rest, toa =>
  (if t = pyUpper toa ∨ pyUpper toa ∈ info.aliases then
    info.columns.map (fun cd =>
      { word := cd.name,
        menu := "[DEFAULT " ++ cd.default ++ " DATATYPE " ++ cd.type ++ "]",
        kind := "col" })
  else []) ++ columnCandidates rest toa

/-- Inner loop of the `db.schema.partialTable` branch (snowflake.py:92-95):
one `"table or view"` candidate per table, each followed by one `"alias"`
candidate per alias of that table.  `self._cache["tables"][table]` is a bare
dict indexing, so a table name missing from the table mapping raises
`KeyError`. -/
def tablesAndAliases (cache : Cache) : List String → Except String (List Candidate)
| [] => Except.ok []
| t :: ts =>
  match lookupAssoc cache.tables t with
  | none => Except.error "KeyError"
  | some info =>
    match tablesAndAliases cache ts with
    | Except.error e => Except.error e
    | Except.ok rest =>
      Except.ok (({ word := t, kind := "table or view" } ::
        info.aliases.map (fun a => { word := a, kind := "alias" })) ++ rest)

/-- The `if table_match:` branch (snowflake.py:79-95).  Note that
`table_match.groups()[7]` / `[6]` are groups 8 / 7 of the pattern, and that
an empty matched group is falsy exactly like an unmatched (`None`) group;
`group(2).split(".")[1]` raises `IndexError` when the qualifier contains no
dot. -/
def tableBranch (cache : Cache) (tm : TableMatch) : Except String (List Candidate) :=
  if truthy tm.g8 then
    Except.ok (cache.databases.map (fun q => { word := q.1, kind := "database" }))
  else if truthy tm.g7 then
    Except.ok (((lookupAssoc cache.databases ((pySplit tm.g2 '.').headD "")).getD []).map
      (fun q => { word := q.1, kind := "schema" }))
  else
    match (pySplit tm.g2 '.').get? 1 with
    | none => Except.error "IndexError"
    | some schema =>
      let dbname := (pySplit tm.g2 '.').headD ""
      tablesAndAliases cache
        ((lookupAssoc ((lookupAssoc cache.databases dbname).getD []) schema).getD [])

/-- `Source.gather_candidates` after the `_make_cache` call, as a function of
the in-memory cache and the input line (snowflake.py:53-97).  The column
branch runs only when `column_match and not table_match` (line 60), and the
table branch only when `table_match` (line 79), so exactly one of the two
contributes to the candidate list before the final sort. -/
def gatherCandidates (cache : Cache) (line : String) : Except String (List Candidate) :=
  match tableSearch line with
  | none =>
    Except.ok (sortByWord
      (match columnSearch line with
       | some toa => columnCandidates cache.tables toa
       | none => []))
  | some tm =>
    match tableBranch cache tm with
    | Except.error e => Except.error e
    | Except.ok tcs => Except.ok (sortByWord tcs)

/-! ### Query executor: Source._execute_query (snowflake.py:99-107) -/

/-- Outcome of the `subprocess.check_output` invocation of `snowsql`. -/
inductive ProcOutcome where
| output (stdout : String)
| calledProcessError
| spawnError
deriving DecidableEq, Repr

/-- `Source._execute_query`: on exit status zero, split captured stdout into
lines, skip the 4-line header, and yield the rows with more than 5
pipe-delimited fields.  `except CalledProcessError: return None` ends the
generator, yielding nothing.  A process spawn error (`FileNotFoundError`,
e.g. `snowsql` missing from PATH) is not caught by the
`except CalledProcessError` clause and propagates to the caller. -/
def executeQuery : ProcOutcome → Except String (List String)
| ProcOutcome.output s =>
  Except.ok (((pySplit s '\n').drop 4).filter (fun row => 5 < (pySplit row '|').length))
| ProcOutcome.calledProcessError => Except.ok []
| ProcOutcome.spawnError => Except.error "FileNotFoundError"

/-! ### Alias extraction (snowflake.py:172-187)

The pattern handed to `deoplete.util.parse_buffer_pattern` is
`(FROM|JOIN|from|join)\s+(\w+)[.](\w+)([.](\w*))?\s+(\w*)`.
`parse_buffer_pattern(b, pattern)` runs `re.findall(pattern, line)` over every
buffer line, concatenates the per-line hit lists and deduplicates them through
`set()`.  `re.findall` with several groups returns one tuple of all six groups
per match, with an unmatched group rendered as the empty string. -/

/-- One `findall` tuple: groups 1-6 of the alias pattern, unmatched groups
as `""`.  The code reads indices 2, 4, 5 (groups 3, 5, 6). -/
structure AliasHit where
  g1 : String
  g2 : String
  g3 : String
  g4 : String
  g5 : String
  g6 : String
deriving DecidableEq, Repr

/-- Try the alias pattern anchored at the start of the input; on success
return the hit and the remainder after the match (where `findall` resumes).
The optional `([.](\w*))?` is taken greedily when a dot follows the second
identifier; if the mandatory `\s+` then fails, skipping the optional group
cannot save the match (`\s+` would start at that same dot), so the position
fails as a whole — matching Python's backtracking outcome. -/
def matchAliasAt (cs : List Char) : Option (AliasHit × List Char) :=
  match matchKeyword cs with
  | none => none
  | some (kw, a0) =>
    if a0.takeWhile isSpaceChar = [] then none
    else
      let a1 := a0.dropWhile isSpaceChar
      let w1 := a1.takeWhile isWordChar
      if w1 = [] then none
      else
        match a1.dropWhile isWordChar with
        | '.' :: b1 =>
          let w2 := b1.takeWhile isWordChar
          if w2 = [] then none
          else
            let (g4, g5, c1) :=
              match b1.dropWhile isWordChar with
              | '.' :: b2 =>
                (('.' :: b2.takeWhile isWordChar).asString,
                 (b2.takeWhile isWordChar).asString,
                 b2.dropWhile isWordChar)
              | other => ("", "", other)
            if c1.takeWhile isSpaceChar = [] then none
            else
              let c2 := c1.dropWhile isSpaceChar
              some ({ g1 := kw, g2 := w1.asString, g3 := w2.asString,
                      g4 := g4, g5 := g5,
                      g6 := (c2.takeWhile isWordChar).asString },
                    c2.dropWhile isWordChar)
        | _ => none

/-- `re.findall` over one line: scan left to right, resume after each match.
Every match consumes at least one character, so `cs.length` steps of fuel are
always enough. -/
def findAliasAux : Nat → List Char → List AliasHit
| 0, _ => []
| _ + 1, [] => []
| fuel + 1, c :: rest =>
  match matchAliasAt (c :: rest) with
  | some (h, after) => h :: findAliasAux fuel after
  | none => findAliasAux fuel rest

def findAliasHits (line : String) : List AliasHit :=
  findAliasAux line.data.length line.data

/-- Deduplication with the first occurrence kept.  Python's `set()` fixes the
hit multiset but leaves iteration order unspecified; the alias lists the code
derives from it are themselves deduplicated, so only the order of recorded
aliases (never their content) depends on this choice. -/
def dedupFirst {α : Type} [DecidableEq α] : List α → List α
| [] => []
| a :: as => a :: (dedupFirst as).filter (fun x => x ≠ a)

/-- `parse_buffer_pattern(getlines(self.vim), r"(FROM|JOIN|from|join)...")`
(snowflake.py:172-174). -/
def parseBufferPattern (docLines : List String) : List AliasHit :=
  dedupFirst (docLines.foldr (fun l acc => findAliasHits l ++ acc) [])

/-- `self._cache["tables"][table]["aliases"] = []` for every table
(snowflake.py:176-178). -/
def clearAliases : List (String × TableInfo) → List (String × TableInfo)
| [] => []
| p :: ps => (p.1, { p.2 with aliases := [] }) :: clearAliases ps

/-- Processing of one alias hit (snowflake.py:180-187):
`table = alias_hit[4].upper() or alias_hit[2].upper()` (the empty string is
falsy), `alias = alias_hit[5].upper()`; tables unknown to the cache are
skipped, and an alias already recorded for the table is not appended again. -/
def recordAlias (tabs : List (String × TableInfo)) (h : AliasHit) : List (String × TableInfo) :=
  match lookupAssoc tabs (if h.g5 ≠ "" then pyUpper h.g5 else pyUpper h.g3) with
  | none => tabs
  | some info =>
    if pyUpper h.g6 ∈ info.aliases then tabs
    else
      updateAssoc tabs (if h.g5 ≠ "" then pyUpper h.g5 else pyUpper h.g3)
        { info with aliases := info.aliases ++ [pyUpper h.g6] }

/-- The alias-gathering tail of `Source._make_cache` (snowflake.py:171-187):
clear every table's aliases, then record the hits of the current document. -/
def aliasPhase (cache : Cache) (docLines : List String) : Cache :=
  { cache with
    tables := (parseBufferPattern docLines).foldl recordAlias (clearAliases cache.tables) }

/-! ### Cache building: Source._cache_db (snowflake.py:113-147)

The two introspection queries are modelled by the row lists their
`_execute_query` generators yield: `dbRows` for `SHOW DATABASES` and
`tblRows dbname` for the per-database column query.  The `os.makedirs` call
and the `pickle.dump` of the result (persistence) have no effect on the
in-memory cache and are modelled by the snapshot state of `_make_cache`. -/

/-- One row of the `SHOW DATABASES` result (snowflake.py:120-123):
`dbname = row.split("|")[2].strip()`, inserted with an empty schema mapping
if not already present. -/
def addDbRows : Cache → List String → Except String Cache
| c, [] => Except.ok c
| c, row :: rest =>
  match (pySplit row '|').get? 2 with
  | none => Except.error "IndexError"
  | some f =>
    if (lookupAssoc c.databases (pyStrip f)).isSome then addDbRows c rest
    else addDbRows { c with databases := c.databases ++ [(pyStrip f, [])] } rest

/-- One row of the per-database column query (snowflake.py:132-145), with the
source's evaluation order: fields 2 and 3 are read first, the database and
table mappings are updated, and fields 4-6 are only read inside the appended
column dict.  A row with exactly 6 pipe-delimited fields therefore raises
`IndexError` at `row_split[6]`.  `dbname` is always a key of `databases`
when called from `_cache_db` (it iterates the keys). -/
def ingestRow (c : Cache) (dbname row : String) : Except String Cache :=
  let rs := (pySplit row '|').map pyStrip
  match rs.get? 2 with
  | none => Except.error "IndexError"
  | some schema =>
    match rs.get? 3 with
    | none => Except.error "IndexError"
    | some table =>
      match lookupAssoc c.databases dbname with
      | none => Except.error "KeyError"
      | some dbMap =>
        let schemaTables := (lookupAssoc dbMap schema).getD []
        let schemaTables := if table ∈ schemaTables then schemaTables
                            else schemaTables ++ [table]
        let c := { c with databases :=
                    updateAssoc c.databases dbname (setAssoc dbMap schema schemaTables) }
        let info := (lookupAssoc c.tables table).getD { columns := [], aliases := [] }
        match rs.get? 4 with
        | none => Except.error "IndexError"
        | some nm =>
          match rs.get? 5 with
          | none => Except.error "IndexError"
          | some df =>
            match rs.get? 6 with
            | none => Except.error "IndexError"
            | some dt =>
              let info2 := { info with
                columns := info.columns ++ [{ name := nm, default := df, type := dt }] }
              Except.ok { c with tables := setAssoc c.tables table info2 }

def ingestRows (dbname : String) : Cache → List String → Except String Cache
| c, [] => Except.ok c
| c, row :: rest =>
  match ingestRow c dbname row with
  | Except.error e => Except.error e
  | Except.ok c2 => ingestRows dbname c2 rest

/-- `for dbname in self._cache["databases"]` (snowflake.py:127): step 2 never
adds or removes an outer database key, so iterating the key list captured at
entry is the live-dict iteration of the source. -/
def ingestAllDbs (tblRows : String → List String) : Cache → List String → Except String Cache
| c, [] => Except.ok c
| c, dbname :: rest =>
  match ingestRows dbname c (tblRows dbname) with
  | Except.error e => Except.error e
  | Except.ok c2 => ingestAllDbs tblRows c2 rest

/-- Table step of `_cache_db` (snowflake.py:126-145), guarded by
`if not self._cache["tables"]`.  The second returned flag records whether the
step ran (i.e. whether its introspection queries were issued). -/
def cacheDbStep2 (c : Cache) (tblRows : String → List String) (ranDb : Bool) :
    Except String (Cache × Bool × Bool) :=
  if c.tables = [] then
    match ingestAllDbs tblRows c (c.databases.map (fun q => q.1)) with
    | Except.error e => Except.error e
    | Except.ok c2 => Except.ok (c2, ranDb, true)
  else Except.ok (c, ranDb, false)

/-- `Source._cache_db` (snowflake.py:113-147).  The first flag records whether
the `SHOW DATABASES` step ran, the second whether the table-listing step ran;
a step runs exactly when its mapping is empty. -/
def cacheDb (cache : Cache) (dbRows : List String) (tblRows : String → List String) :
    Except String (Cache × Bool × Bool) :=
  if cache.databases = [] then
    match addDbRows cache dbRows with
    | Except.error e => Except.error e
    | Except.ok c1 => cacheDbStep2 c1 tblRows true
  else cacheDbStep2 cache tblRows false

/-! ### Freshness check: Source._make_cache (snowflake.py:149-169) -/

/-- State of the pickle file at `CACHE_PICKLE` as `_make_cache` sees it:
absent, present but failing to deserialize, or present and deserializing to
a cache; `ageDays` is `(now - fromtimestamp(st_ctime)).days`. -/
inductive SnapshotState where
| missing
| corrupt (ageDays : Int)
| good (ageDays : Int) (snapshot : Cache)
deriving DecidableEq, Repr

/-- The snapshot/rebuild part of `_make_cache` (snowflake.py:149-169): a
snapshot that exists and is younger than one day is loaded with
`pickle.load`, which raises on a corrupt file (there is no surrounding
try/except); otherwise `_cache_db()` rebuilds.  The rebuild environment is
passed through to `cacheDb`. -/
def makeCacheFreshness (snap : SnapshotState) (cache : Cache) (dbRows : List String)
    (tblRows : String → List String) : Except String Cache :=
  match snap with
  | SnapshotState.missing => (cacheDb cache dbRows tblRows).map (fun r => r.1)
  | SnapshotState.corrupt age =>
    if age < 1 then Except.error "UnpicklingError"
    else (cacheDb cache dbRows tblRows).map (fun r => r.1)
  | SnapshotState.good age snapshot =>
    if age < 1 then Except.ok snapshot
    else (cacheDb cache dbRows tblRows).map (fun r => r.1)

/-- `Source._make_cache` (snowflake.py:149-187): freshness check / rebuild,
then the alias phase over the current document. -/
def makeCache (snap : SnapshotState) (cache : Cache) (dbRows : List String)
    (tblRows : String → List String) (docLines : List String) : Except String Cache :=
  match makeCacheFreshness snap cache dbRows tblRows with
  | Except.error e => Except.error e
  | Except.ok c => Except.ok (aliasPhase c docLines)

/-! ### Sample data used by witnesses and concrete evaluations -/

def ordersInfo : TableInfo :=
  { columns := [{ name := "ID", default := "NULL", type := "NUMBER" }], aliases := [] }

/-- A populated cache: database SALES with schema PUBLIC containing table
ORDERS, and ORDERS carrying one column. -/
def sampleCache : Cache :=
  { tables := [("ORDERS", ordersInfo)],
    databases := [("SALES", [("PUBLIC", ["ORDERS"])])] }

def ordersWithAlias : List (String × TableInfo) :=
  [("ORDERS", { columns := [{ name := "ID", default := "NULL", type := "NUMBER" }],
                aliases := ["O"] })]

def ordersNoAlias : List (String × TableInfo) :=
  [("ORDERS", { columns := [{ name := "ID", default := "NULL", type := "NUMBER" }],
                aliases := [] })]

/-! ### Helper lemmas -/

theorem word_not_space {c : Char} (h : isWordChar c = true) : isSpaceChar c = false := by
  simp only [isWordChar, Bool.or_eq_true, Bool.and_eq_true, decide_eq_true_eq,
    beq_iff_eq] at h
  simp only [isSpaceChar, Bool.or_eq_false_iff, beq_eq_false_iff_ne, ne_eq]
  omega

theorem takeWhile_all {p : Char → Bool} :
    ∀ (l : List Char), (∀ c ∈ l, p c = true) → l.takeWhile p = l := by
  intro l h
  induction l with
  | nil => rfl
  | cons c cs ih =>
    have hc : p c = true := h c (List.mem_cons_self c cs)
    simp only [List.takeWhile_cons, hc, if_true]
    rw [ih (fun x hx => h x (List.mem_cons_of_mem c hx))]

theorem dropWhile_all {p : Char → Bool} :
    ∀ (l : List Char), (∀ c ∈ l, p c = true) → l.dropWhile p = [] := by
  intro l h
  induction l with
  | nil => rfl
  | cons c cs ih =>
    have hc : p c = true := h c (List.mem_cons_self c cs)
    simp only [List.dropWhile_cons, hc, if_true]
    exact ih (fun x hx => h x (List.mem_cons_of_mem c hx))

theorem dropWhile_none {p : Char → Bool} :
    ∀ (l : List Char), (∀ c ∈ l, p c = false) → l.dropWhile p = l := by
  intro l h
  induction l with
  | nil => rfl
  | cons c cs _ =>
    have hc : p c = false := h c (List.mem_cons_self c cs)
    simp only [List.dropWhile_cons, hc]
    simp

theorem asString_data (s : String) : s.data.asString = s := rfl

theorem mem_insertByWord {c x : Candidate} :
    ∀ {l : List Candidate}, c ∈ insertByWord x l ↔ (c = x ∨ c ∈ l) := by
  intro l
  induction l with
  | nil => simp [insertByWord]
  | cons d ds ih =>
    by_cases hd : d.word < x.word
    · simp only [insertByWord, if_pos hd, List.mem_cons, ih]
      tauto
    · simp only [insertByWord, if_neg hd, List.mem_cons]

theorem mem_sortByWord {c : Candidate} :
    ∀ {l : List Candidate}, c ∈ sortByWord l ↔ c ∈ l := by
  intro l
  induction l with
  | nil => simp [sortByWord]
  | cons x xs ih =>
    simp only [sortByWord, mem_insertByWord, ih, List.mem_cons]

theorem tablesAndAliases_kind (cache : Cache) :
    ∀ (ts : List String) (l : List Candidate), tablesAndAliases cache ts = Except.ok l →
      ∀ c ∈ l, c.kind ≠ "col" := by
  intro ts
  induction ts with
  | nil =>
    intro l h c hc
    unfold tablesAndAliases at h
    injection h with h2
    subst h2
    simp at hc
  | cons t ts ih =>
    intro l h c hc
    unfold tablesAndAliases at h
    cases hl : lookupAssoc cache.tables t with
    | none => rw [hl] at h; simp at h
    | some info =>
      rw [hl] at h
      cases hr : tablesAndAliases cache ts with
      | error e => rw [hr] at h; simp at h
      | ok rest =>
        rw [hr] at h
        injection h with h2
        subst h2
        simp only [List.mem_append, List.mem_cons, List.mem_map] at hc
        rcases hc with (rfl | ⟨a, _, rfl⟩) | hrest
        · simp
        · simp
        · exact ih rest hr c hrest

theorem tableBranch_kind (cache : Cache) (tm : TableMatch) (l : List Candidate)
    (h : tableBranch cache tm = Except.ok l) : ∀ c ∈ l, c.kind ≠ "col" := by
  intro c hc
  unfold tableBranch at h
  by_cases h8 : truthy tm.g8
  · rw [if_pos h8] at h
    injection h with h2
    subst h2
    simp only [List.mem_map] at hc
    obtain ⟨q, _, rfl⟩ := hc
    simp
  · rw [if_neg h8] at h
    by_cases h7 : truthy tm.g7
    · rw [if_pos h7] at h
      injection h with h2
      subst h2
      simp only [List.mem_map] at hc
      obtain ⟨q, _, rfl⟩ := hc
      simp
    · rw [if_neg h7] at h
      cases hg : (pySplit tm.g2 '.').get? 1 with
      | none => rw [hg] at h; simp at h
      | some schema =>
        rw [hg] at h
        exact tablesAndAliases_kind cache _ l h c hc

/-! ### Claims -/

/-- Claim C1 (code bug).  On the bare input `FROM ` the resolver does not
emit database candidates: the bare alternative matches with group 8 equal to
the empty string, which is falsy like `None`, so control falls through both
group tests into the `db.schema` branch, where `group(2).split(".")[1]` on the
one-element split of `""` raises `IndexError`.  Likewise `FROM sales.` has a
falsy empty group 7, so it is handled by the table branch (here: no
candidates) instead of the schema branch, although the cache knows schema
PUBLIC under SALES. -/
theorem C1_scan_dispatch_bug :
    gatherCandidates sampleCache "FROM " = Except.error "IndexError"
    ∧ gatherCandidates sampleCache "FROM sales." = Except.ok [] :=
  ⟨rfl, rfl⟩

/-- Claim C2 (counterexample).  Lookups in the table-reference branch use the
typed text verbatim: with the same cache, `FROM SALES.p` yields the schema
candidate but the case variant `FROM sales.p` yields nothing, so
classification is not invariant under case variants of a stored database
name. -/
theorem C2_counterexample :
    gatherCandidates sampleCache "FROM SALES.p" =
      Except.ok [{ word := "PUBLIC", kind := "schema" }]
    ∧ gatherCandidates sampleCache "FROM sales.p" = Except.ok [] :=
  ⟨rfl, rfl⟩

/-- Claim C2 (amended).  Only the column-branch lookup upper-cases its
comparison key: the candidates produced for a token depend only on its
upper-cased form, so any case variant of an upper-case stored table name
resolves to the same table there. -/
theorem C2_column_lookup_upper (tabs : List (String × TableInfo)) (v T : String)
    (hv : pyUpper v = T) (hT : pyUpper T = T) :
    columnCandidates tabs v = columnCandidates tabs T := by
  induction tabs with
  | nil => rfl
  | cons p rest ih =>
    cases p with
    | mk t info => simp only [columnCandidates, hv, hT, ih]

theorem C2_column_lookup_upper_wit :
    columnCandidates sampleCache.tables "orders" = columnCandidates sampleCache.tables "ORDERS" :=
  C2_column_lookup_upper sampleCache.tables "orders" "ORDERS" (by decide) (by decide)

/-- Claim C3 (counterexample).  A spawn error of the external tool is not
caught by the `except CalledProcessError` clause and propagates to the
caller of `_execute_query`. -/
theorem C3_counterexample :
    executeQuery ProcOutcome.spawnError = Except.error "FileNotFoundError" := rfl

/-- Claim C3 (amended).  A non-zero exit of the external tool yields zero
rows and no exception; every row a successful run yields has more than 5
pipe-delimited fields; a spawn error, however, propagates as an exception. -/
theorem C3_executor_failures :
    executeQuery ProcOutcome.calledProcessError = Except.ok []
    ∧ (∀ (s : String) (rows : List String), executeQuery (ProcOutcome.output s) = Except.ok rows →
        ∀ r ∈ rows, 5 < (pySplit r '|').length)
    ∧ executeQuery ProcOutcome.spawnError = Except.error "FileNotFoundError" := by
  refine ⟨rfl, ?_, rfl⟩
  intro s rows h r hr
  unfold executeQuery at h
  injection h with h2
  subst h2
  have := List.of_mem_filter hr
  exact of_decide_eq_true this

theorem C3_executor_failures_wit : 5 < (pySplit "a|b|c|d|e|f" '|').length :=
  C3_executor_failures.2.1 "h1\nh2\nh3\nh4\na|b|c|d|e|f" ["a|b|c|d|e|f"] rfl
    "a|b|c|d|e|f" (List.mem_singleton.mpr rfl)

/-- Claim C4 (counterexample).  A snapshot file that exists, is younger than
one day, and cannot be deserialized makes `_make_cache` raise from
`pickle.load` (there is no fallback to a rebuild), so the error surfaces to
the caller of the completion request. -/
theorem C4_counterexample :
    makeCacheFreshness (SnapshotState.corrupt 0) initCache [] (fun _ => []) =
      Except.error "UnpicklingError" := rfl

/-- Claim C4 (amended).  A missing snapshot falls back to a full rebuild with
no error, and so does a corrupt snapshot that is at least one day old (it is
never loaded); but a corrupt snapshot younger than one day raises a
deserialization error that propagates to the caller. -/
theorem C4_snapshot_fallback (cache : Cache) (dbRows : List String)
    (tblRows : String → List String) (age : Int) :
    makeCacheFreshness SnapshotState.missing cache dbRows tblRows =
      (cacheDb cache dbRows tblRows).map (fun r => r.1)
    ∧ (age < 1 → makeCacheFreshness (SnapshotState.corrupt age) cache dbRows tblRows =
        Except.error "UnpicklingError")
    ∧ (1 ≤ age → makeCacheFreshness (SnapshotState.corrupt age) cache dbRows tblRows =
        (cacheDb cache dbRows tblRows).map (fun r => r.1)) := by
  refine ⟨rfl, fun h => ?_, fun h => ?_⟩
  · simp only [makeCacheFreshness]
    rw [if_pos h]
  · simp only [makeCacheFreshness]
    rw [if_neg (by omega : ¬ age < 1)]

theorem C4_snapshot_fallback_wit :
    makeCacheFreshness (SnapshotState.corrupt 2) initCache [] (fun _ => []) =
      (cacheDb initCache [] (fun _ => [])).map (fun r => r.1) :=
  (C4_snapshot_fallback initCache [] (fun _ => []) 2).2.2 (by decide)

/-- Claim C5 (code bug).  A result row with exactly 6 pipe-delimited fields
passes the executor's `> 5` filter and is yielded, but ingesting it in
`_cache_db` raises `IndexError` at `row_split[6]` (the 7th field), so not
every yielded row can be ingested without raising. -/
theorem C5_six_field_row_bug :
    executeQuery (ProcOutcome.output "h1\nh2\nh3\nh4\na|b|SCH|TBL|COL|42") =
      Except.ok ["a|b|SCH|TBL|COL|42"]
    ∧ ingestRow sampleCache "SALES" "a|b|SCH|TBL|COL|42" = Except.error "IndexError"
    ∧ (ingestRow sampleCache "SALES" " a | b | SCH | TBL | COL | 42 | NUMBER ").toOption.isSome
        = true :=
  ⟨rfl, rfl, rfl⟩

/-- Claim C9 (counterexample).  The alias pattern's keyword alternation is the
four literals `FROM|JOIN|from|join` with no IGNORECASE flag: the mixed-case
variant `From` matches nothing, so no alias is recorded, while the same
clause with `FROM` records alias O for table ORDERS. -/
theorem C9_counterexample :
    (aliasPhase sampleCache ["From SALES.PUBLIC.ORDERS o"]).tables = ordersNoAlias
    ∧ (aliasPhase sampleCache ["FROM SALES.PUBLIC.ORDERS o"]).tables = ordersWithAlias :=
  ⟨rfl, rfl⟩

/-- Claim C9 (amended).  Exactly the all-upper-case and all-lower-case
keyword spellings FROM, from, JOIN, join introduce a recognized
table-reference clause; mixed-case variants such as `From` or `jOin` are not
matched and record no alias. -/
theorem C9_keyword_exact_case :
    (aliasPhase sampleCache ["FROM SALES.PUBLIC.ORDERS o"]).tables = ordersWithAlias
    ∧ (aliasPhase sampleCache ["from SALES.PUBLIC.ORDERS o"]).tables = ordersWithAlias
    ∧ (aliasPhase sampleCache ["JOIN SALES.PUBLIC.ORDERS o"]).tables = ordersWithAlias
    ∧ (aliasPhase sampleCache ["join SALES.PUBLIC.ORDERS o"]).tables = ordersWithAlias
    ∧ (aliasPhase sampleCache ["From SALES.PUBLIC.ORDERS o"]).tables = ordersNoAlias
    ∧ (aliasPhase sampleCache ["jOin SALES.PUBLIC.ORDERS o"]).tables = ordersNoAlias :=
  ⟨rfl, rfl, rfl, rfl, rfl, rfl⟩

/-- Claim C6.  Column-vs-table precedence: any column-kind candidate in the
resolver's output certifies that the column scan matched and the
table-reference scan did not; in particular, whenever both scans match, the
table branch wins and no column candidates are produced, and column
candidates appear only when the column scan matches alone. -/
theorem gather_of_tableSearch_none (cache : Cache) (line : String)
    (h : tableSearch line = none) :
    gatherCandidates cache line = Except.ok (sortByWord
      (match columnSearch line with
       | some toa => columnCandidates cache.tables toa
       | none => [])) := by
  unfold gatherCandidates
  rw [h]

theorem gather_of_tableSearch_some (cache : Cache) (line : String) (tm : TableMatch)
    (h : tableSearch line = some tm) :
    gatherCandidates cache line =
      (match tableBranch cache tm with
       | Except.error e => Except.error e
       | Except.ok tcs => Except.ok (sortByWord tcs)) := by
  unfold gatherCandidates
  rw [h]

theorem C6_column_vs_table_precedence (cache : Cache) (line : String)
    (cs : List Candidate) (c : Candidate)
    (hok : gatherCandidates cache line = Except.ok cs) (hmem : c ∈ cs)
    (hcol : c.kind = "col") :
    (columnSearch line).isSome ∧ tableSearch line = none := by
  cases hts : tableSearch line with
  | none =>
    rw [gather_of_tableSearch_none cache line hts] at hok
    refine ⟨?_, rfl⟩
    cases hcs : columnSearch line with
    | some g => simp
    | none =>
      rw [hcs] at hok
      injection hok with h2
      subst h2
      simp [sortByWord] at hmem
  | some tm =>
    rw [gather_of_tableSearch_some cache line tm hts] at hok
    cases htb : tableBranch cache tm with
    | error e => rw [htb] at hok; simp at hok
    | ok tcs =>
      rw [htb] at hok
      injection hok with h2
      subst h2
      have hin : c ∈ tcs := mem_sortByWord.mp hmem
      exact absurd hcol (tableBranch_kind cache tm tcs htb c hin)

theorem C6_column_vs_table_precedence_wit :
    (columnSearch "select orders.").isSome ∧ tableSearch "select orders." = none :=
  C6_column_vs_table_precedence sampleCache "select orders."
    [{ word := "ID", menu := "[DEFAULT NULL DATATYPE NUMBER]", kind := "col" }]
    { word := "ID", menu := "[DEFAULT NULL DATATYPE NUMBER]", kind := "col" }
    rfl (List.mem_singleton.mpr rfl) rfl

/-- Claim C8.  Rebuild is skip-idempotent: with a populated cache (non-empty
database and table mappings) `_cache_db` issues neither the database-listing
query nor any table-listing query and leaves the mappings unchanged, so a
second consecutive call is a no-op and each introspection step runs at most
once across repeated calls. -/
theorem C8_rebuild_skip (c : Cache) (dbRows : List String)
    (tblRows : String → List String)
    (hdb : c.databases ≠ []) (htb : c.tables ≠ []) :
    cacheDb c dbRows tblRows = Except.ok (c, false, false) := by
  unfold cacheDb cacheDbStep2
  rw [if_neg hdb, if_neg htb]

theorem C8_rebuild_skip_wit :
    cacheDb sampleCache [] (fun _ => []) = Except.ok (sampleCache, false, false) :=
  C8_rebuild_skip sampleCache [] (fun _ => []) (by decide) (by decide)

theorem clearAliases_updateAssoc :
    ∀ (t : List (String × TableInfo)) (k : String) (info : TableInfo) (x : List String),
      lookupAssoc t k = some info →
      clearAliases (updateAssoc t k { info with aliases := x }) = clearAliases t := by
  intro t
  induction t with
  | nil => intro k info x h; cases h
  | cons p ps ih =>
    intro k info x h
    unfold lookupAssoc at h
    by_cases hk : p.1 = k
    · rw [if_pos hk] at h
      injection h with h2
      unfold updateAssoc
      rw [if_pos hk]
      unfold clearAliases
      rw [← hk, ← h2]
    · rw [if_neg hk] at h
      unfold updateAssoc
      rw [if_neg hk]
      unfold clearAliases
      rw [ih k info x h]

theorem clearAliases_recordAlias (tabs : List (String × TableInfo)) (h : AliasHit) :
    clearAliases (recordAlias tabs h) = clearAliases tabs := by
  cases hl : lookupAssoc tabs (if h.g5 ≠ "" then pyUpper h.g5 else pyUpper h.g3) with
  | none =>
    unfold recordAlias
    rw [hl]
  | some info =>
    unfold recordAlias
    rw [hl]
    show clearAliases
        (if pyUpper h.g6 ∈ info.aliases then tabs
         else updateAssoc tabs (if h.g5 ≠ "" then pyUpper h.g5 else pyUpper h.g3)
                { info with aliases := info.aliases ++ [pyUpper h.g6] })
      = clearAliases tabs
    by_cases hm : pyUpper h.g6 ∈ info.aliases
    · rw [if_pos hm]
    · rw [if_neg hm]
      exact clearAliases_updateAssoc tabs _ info _ hl

theorem clearAliases_foldl_recordAlias (hits : List AliasHit) :
    ∀ (tabs : List (String × TableInfo)),
      clearAliases (hits.foldl recordAlias tabs) = clearAliases tabs := by
  induction hits with
  | nil => intro t; rfl
  | cons h hs ih =>
    intro t
    rw [List.foldl_cons, ih, clearAliases_recordAlias]

theorem clearAliases_clearAliases :
    ∀ (t : List (String × TableInfo)), clearAliases (clearAliases t) = clearAliases t := by
  intro t
  induction t with
  | nil => rfl
  | cons p ps ih => simp [clearAliases, ih]

/-- Claim C7.  Alias extraction is history-free: running the alias phase
after any earlier alias phase gives exactly the result of running it alone,
since every invocation first clears all recorded aliases; concretely, a
document with `FROM SALES.PUBLIC.ORDERS o` leaves ORDERS with alias O, and
re-extracting from a document without such a clause leaves it with none. -/
theorem C7_alias_history_free :
    (∀ (c : Cache) (d0 d : List String), aliasPhase (aliasPhase c d0) d = aliasPhase c d)
    ∧ (aliasPhase sampleCache ["FROM SALES.PUBLIC.ORDERS o"]).tables = ordersWithAlias
    ∧ (aliasPhase (aliasPhase sampleCache ["FROM SALES.PUBLIC.ORDERS o"]) ["select id"]).tables
        = ordersNoAlias := by
  refine ⟨?_, rfl, rfl⟩
  intro c d0 d
  unfold aliasPhase
  congr 1
  show (parseBufferPattern d).foldl recordAlias
      (clearAliases ((parseBufferPattern d0).foldl recordAlias (clearAliases c.tables)))
    = (parseBufferPattern d).foldl recordAlias (clearAliases c.tables)
  rw [clearAliases_foldl_recordAlias, clearAliases_clearAliases]

/-- Claim C10.  When the table-reference scan matches the bare shape with a
non-empty typed fragment (e.g. `FROM sal`), the resolver emits one
database-kind candidate per database in the cache, with no filtering by the
typed fragment: the output is the full database list (sorted), independent
of which fragment was typed. -/
theorem C10_no_prefix_filtering (cache : Cache) (p : String)
    (h1 : p ≠ "") (h2 : ∀ c ∈ p.data, isWordChar c = true) :
    gatherCandidates cache ("FROM " ++ p) =
      Except.ok (sortByWord (cache.databases.map
        (fun q => { word := q.1, kind := "database" }))) := by
  have hpd : p.data ≠ [] := by
    intro hn
    apply h1
    cases p with
    | mk d =>
      have hd : d = [] := hn
      subst hd
      rfl
  have hns : ∀ c ∈ p.data, isSpaceChar c = false := fun c hc => word_not_space (h2 c hc)
  have hq : parseQualifier p.data = { g2 := p, g7 := none, g8 := some p } := by
    unfold parseQualifier
    rw [takeWhile_all p.data h2, dropWhile_all p.data h2, if_neg hpd]
    rfl
  have ht : tableMatchAt ('F' :: 'R' :: 'O' :: 'M' :: ' ' :: p.data)
      = some { g2 := p, g7 := none, g8 := some p } := by
    unfold tableMatchAt
    show (if (' ' :: p.data).takeWhile isSpaceChar = [] then none
          else some (parseQualifier ((' ' :: p.data).dropWhile isSpaceChar))) = _
    have e1 : (' ' :: p.data).takeWhile isSpaceChar = ' ' :: p.data.takeWhile isSpaceChar := rfl
    have e2 : (' ' :: p.data).dropWhile isSpaceChar = p.data.dropWhile isSpaceChar := rfl
    rw [e1, e2, if_neg (List.cons_ne_nil _ _), dropWhile_none p.data hns, hq]
  have hts : tableSearch ("FROM " ++ p) = some { g2 := p, g7 := none, g8 := some p } := by
    unfold tableSearch
    rw [String.data_append]
    show tableSearchAux ('F' :: 'R' :: 'O' :: 'M' :: ' ' :: p.data) = _
    unfold tableSearchAux
    rw [ht]
  have htr : truthy (some p) = true := by
    simp [truthy, h1]
  have htb : tableBranch cache { g2 := p, g7 := none, g8 := some p }
      = Except.ok (cache.databases.map (fun q => { word := q.1, kind := "database" })) := by
    unfold tableBranch
    have hg8 : ({ g2 := p, g7 := none, g8 := some p } : TableMatch).g8 = some p := rfl
    rw [hg8, if_pos htr]
  rw [gather_of_tableSearch_some cache ("FROM " ++ p) _ hts, htb]

theorem C10_no_prefix_filtering_wit :
    gatherCandidates sampleCache ("FROM " ++ "sal") =
      Except.ok (sortByWord (sampleCache.databases.map
        (fun q => { word := q.1, kind := "database" }))) :=
  C10_no_prefix_filtering sampleCache "sal" (by decide) (by decide)
